import Mathlib

/-!
Verification of the `OpenIdMetadata` key-resolver component
(`src/apis/OpenIdMetadata.ts`): a cached resolver that turns a key
identifier (`kid`) into PEM public-key material, sourced from an OpenID
discovery document (hop 1) and its JWKS endpoint (hop 2).

The TypeScript class is embedded shallowly: the mutable instance state
becomes the structure `OpenIdMetadata`, each method becomes a pure
function from a pre-state (plus oracles for wall-clock samples and the
two HTTP responses) to a post-state and result.  JavaScript `undefined`
fields are `Option.none`; JavaScript falsiness tests on strings
(`!this.issuer`, `!key.n`, `!key.e`) test `none` or the empty string.
-/

namespace OpenIdAuth

/-- A key record as delivered in the JWKS body (interface `IKey`).
`n`/`e`/`endorsements` may be absent (`undefined`) in the JSON. -/
structure IKey where
  kty : String
  usage : String
  kid : String
  x5t : String
  n : Option String
  e : Option String
  x5c : List String
  endorsements : Option (List String)
deriving DecidableEq

/-- Discovery document body (interface `IOpenIdConfig`); only `issuer`
and `jwks_uri` are consumed by the resolver. -/
structure IOpenIdConfig where
  issuer : String
  authorization_endpoint : String
  jwks_uri : String
  id_token_signing_alg_values_supported : List String
  token_endpoint_auth_methods_supported : List String
deriving DecidableEq

/-- The JWKS body fetched on hop 2: `body.keys as IKey[]`. -/
structure JwksBody where
  keys : List IKey
deriving DecidableEq

/-- Resolved output value (interface `IOpenIdMetadataKey`). -/
structure IOpenIdMetadataKey where
  key : String
  endorsements : Option (List String)
deriving DecidableEq

/-- The mutable instance state of class `OpenIdMetadata`:
`url` (immutable), `lastUpdated` (initially `0`), `keys` and `issuer`
(initially `undefined`, here `none`).  Times are wall-clock
milliseconds as returned by `Date.getTime()`, modelled as `Int`. -/
structure OpenIdMetadata where
  url : String
  lastUpdated : Int
  keys : Option (List IKey)
  issuer : Option String
deriving DecidableEq

/-- `constructor(url)`: field initializer sets `lastUpdated = 0`;
`keys` and `issuer` start `undefined`. -/
def OpenIdMetadata.mkNew (url : String) : OpenIdMetadata :=
  { url := url, lastUpdated := 0, keys := none, issuer := none }

/-- Outcome of one HTTP GET as seen by the `request` callback
`(err, response, body)`: either a transport error, or a response with a
status code and a parsed JSON body (`none` models a falsy body). -/
inductive FetchResult (α : Type) where
  | transportError (msg : String)
  | response (statusCode : Nat) (body : Option α)
deriving DecidableEq

/-- The failure test applied to each hop:
`err || response.statusCode >= 400 || !body`. -/
def FetchResult.fails {α : Type} : FetchResult α → Bool
  | .transportError _ => true
  | .response sc body => decide (400 ≤ sc) || body.isNone

/-- JavaScript string falsiness for an optional field:
`undefined` and `""` are falsy. -/
def strFalsy : Option String → Bool
  | none => true
  | some s => s.isEmpty

/-- Models the external `base64url` npm package's `toBase64`:
base64url to base64 (character replacement plus padding). -/
def base64urlToBase64 (s : String) : String :=
  let t := s.map (fun c => if c = '-' then '+' else if c = '_' then '/' else c)
  match t.length % 4 with
  | 2 => t ++ "=="
  | 3 => t ++ "="
  | _ => t

/-- Models the external `rsa-pem-from-mod-exp` npm package: a pure
deterministic function of the base64 modulus and the exponent producing
a PEM string.  No claim depends on the PEM encoding itself, only on it
being a function of `(n, e)`. -/
def getPem (modulusB64 exponent : String) : String :=
  "-----BEGIN RSA PUBLIC KEY-----\n" ++ modulusB64 ++ ":" ++ exponent
    ++ "\n-----END RSA PUBLIC KEY-----"

/-- ECMAScript `GetSubstitution` for a string search pattern (so with
no capture groups): scans the replacement text and expands `$$` to a
dollar, `$&` to the matched text, a dollar followed by a backquote
(`Char.ofNat 96`) to the text before the match, and a dollar followed
by an apostrophe (`Char.ofNat 39`) to the text after the match.  Every
other dollar — a trailing one, `$<`, or `$digit` (there are no named
or numbered captures for a string pattern) — stays literal. -/
def getSubstitution (rep matched before after : List Char) : List Char :=
  match rep with
  | [] => []
  | [c] => [c]
  | c :: d :: t =>
      if c = '$' then
        if d = '$' then '$' :: getSubstitution t matched before after
        else if d = '&' then matched ++ getSubstitution t matched before after
        else if d = Char.ofNat 96 then before ++ getSubstitution t matched before after
        else if d = Char.ofNat 39 then after ++ getSubstitution t matched before after
        else c :: getSubstitution (d :: t) matched before after
      else c :: getSubstitution (d :: t) matched before after

/-- The scan for the first occurrence of `pat`, threading in `before`
the text already passed over, which `getSubstitution` needs. -/
def listReplaceFirstFrom (pat rep : List Char) : List Char → List Char → List Char
  | _, [] => []
  | before, c :: cs =>
      if pat.isPrefixOf (c :: cs) then
        getSubstitution rep pat before ((c :: cs).drop pat.length)
          ++ (c :: cs).drop pat.length
      else c :: listReplaceFirstFrom pat rep (before ++ [c]) cs

/-- `replace` on character lists with JavaScript
`String.prototype.replace(string, string)` semantics: at most the
first occurrence of `pat` is replaced, by the `GetSubstitution`
expansion of `rep`. -/
def listReplaceFirst (s pat rep : List Char) : List Char :=
  listReplaceFirstFrom pat rep [] s

/-- First-occurrence-only string replace, as JS `this.issuer.replace`. -/
def replaceFirst (s pat rep : String) : String :=
  String.mk (listReplaceFirst s.data pat.data rep.data)

/-- Modelled from the spec, not the source: "returns the cached issuer
URL template with the literal placeholder `\x7btenantid\x7d`
substituted by the given tenant identifier" — a verbatim
first-occurrence substitution, to be compared with the
source-faithful `listReplaceFirst`. -/
def specSubstituteFirst (s pat rep : List Char) : List Char :=
  match s with
  | [] => []
  | c :: cs =>
      if pat.isPrefixOf (c :: cs) then rep ++ (c :: cs).drop pat.length
      else c :: specSubstituteFirst cs pat rep

/-- The literal placeholder substituted by `getIssuer`. -/
def tenantPlaceholder : String := "\x7btenantid\x7d"

/-- The message of the error thrown by `getIssuer` when the stored
issuer is falsy (the `NotConfiguredError` of the specification). -/
def configNotFetchedMsg : String :=
  "Configuration has not yet been fetched. Call getKey() first to ensure that the configuration is up to date."

/-- Hop-1 error message: `"Failed to load openID config: " + statusCode`. -/
def failedOpenIdConfigMsg (sc : Nat) : String :=
  "Failed to load openID config: " ++ toString sc

/-- Hop-2 error message: `"Failed to load Keys: " + statusCode`. -/
def failedKeysMsg (sc : Nat) : String :=
  "Failed to load Keys: " ++ toString sc

/-- `getIssuer(tenantId)`: throws (here `Except.error`) when
`!this.issuer` — i.e. the issuer is `undefined` or the empty string —
otherwise returns `this.issuer.replace("{tenantid}", tenantId)`. -/
def getIssuer (st : OpenIdMetadata) (tenantId : String) : Except String String :=
  match st.issuer with
  | none => .error configNotFetchedMsg
  | some s =>
      if s.isEmpty then .error configNotFetchedMsg
      else .ok (replaceFirst s tenantPlaceholder tenantId)

/-- The loop body of `findKey`: linear scan for the first record whose
`kid` matches; at the first match, a record with falsy `n` or `e` makes
the whole lookup return `null` (non-RSA keys are not resolvable). -/
def findKeyInList (l : List IKey) (keyId : String) : Option IOpenIdMetadataKey :=
  match l with
  | [] => none
  | k :: ks =>
      if k.kid = keyId then
        if strFalsy k.n || strFalsy k.e then none
        else some { key := getPem (base64urlToBase64 (k.n.getD "")) (k.e.getD "")
                    endorsements := k.endorsements }
      else findKeyInList ks keyId

/-- `findKey(keyId)`: `null` when `!this.keys` (never loaded),
otherwise the linear scan. -/
def findKey (st : OpenIdMetadata) (keyId : String) : Option IOpenIdMetadataKey :=
  match st.keys with
  | none => none
  | some ks => findKeyInList ks keyId

/-- `refreshCache(cb)`.  `hop1` is the response to `GET this.url`;
`hop2 u` is the response to `GET u` (invoked at `openIdConfig.jwks_uri`);
`now2` is the `new Date().getTime()` sample taken inside the hop-2
callback.  Returns the post-state and the error value passed to `cb`
(`none` on success).  Note the source commits `this.issuer` immediately
after hop 1 succeeds, before hop 2 runs; `this.lastUpdated` and
`this.keys` are assigned only when hop 2 also succeeds. -/
def refreshCache (st : OpenIdMetadata) (hop1 : FetchResult IOpenIdConfig)
    (hop2 : String → FetchResult JwksBody) (now2 : Int) :
    OpenIdMetadata × Option String :=
  match hop1 with
  | .transportError m => (st, some m)
  | .response sc body =>
      match body with
      | none => (st, some (failedOpenIdConfigMsg sc))
      | some cfg =>
          if 400 ≤ sc then (st, some (failedOpenIdConfigMsg sc))
          else
            let st1 : OpenIdMetadata := { st with issuer := some cfg.issuer }
            match hop2 cfg.jwks_uri with
            | .transportError m2 => (st1, some m2)
            | .response sc2 body2 =>
                match body2 with
                | none => (st1, some (failedKeysMsg sc2))
                | some jwks =>
                    if 400 ≤ sc2 then (st1, some (failedKeysMsg sc2))
                    else ({ st1 with lastUpdated := now2, keys := some jwks.keys },
                          none)

/-- The freshness window: `1000 * 60 * 60 * 24 * 5` milliseconds. -/
def fiveDaysMs : Int := 1000 * 60 * 60 * 24 * 5

/-- What one `getKey(keyId, cb)` call produces: the post-state, the key
delivered to `cb` (`none` models `null`), whether `refreshCache` was
invoked (the two network fetches), and whether `console.error` ran. -/
structure GetKeyResult where
  state : OpenIdMetadata
  key : Option IOpenIdMetadataKey
  refreshed : Bool
  loggedError : Bool
deriving DecidableEq

/-- `getKey(keyId, cb)`: refresh when
`this.lastUpdated < now - 1000*60*60*24*5`; a refresh error is logged
and the search proceeds against whatever is cached; otherwise the cache
is searched directly with no network traffic.  `now` is the
`new Date().getTime()` sample taken on entry. -/
def getKey (st : OpenIdMetadata) (keyId : String) (now : Int)
    (hop1 : FetchResult IOpenIdConfig) (hop2 : String → FetchResult JwksBody)
    (now2 : Int) : GetKeyResult :=
  if st.lastUpdated < now - fiveDaysMs then
    let p := refreshCache st hop1 hop2 now2
    { state := p.1, key := findKey p.1 keyId, refreshed := true,
      loggedError := p.2.isSome }
  else
    { state := st, key := findKey st keyId, refreshed := false,
      loggedError := false }

/-- One `getKey` call with all its oracles, for multi-call traces. -/
structure KeyCall where
  keyId : String
  now : Int
  hop1 : FetchResult IOpenIdConfig
  hop2 : String → FetchResult JwksBody
  now2 : Int

/-- Run a sequence of `getKey` calls, threading the instance state. -/
def runCalls (st : OpenIdMetadata) : List KeyCall → OpenIdMetadata
  | [] => st
  | c :: cs => runCalls (getKey st c.keyId c.now c.hop1 c.hop2 c.now2).state cs

/-! ### Helper lemmas -/

/-- When hop 1 fails, `refreshCache` leaves the state untouched and
reports an error. -/
lemma refreshCache_hop1_fails (st : OpenIdMetadata) (h1 : FetchResult IOpenIdConfig)
    (h2 : String → FetchResult JwksBody) (n2 : Int) (h : h1.fails = true) :
    (refreshCache st h1 h2 n2).1 = st ∧ (refreshCache st h1 h2 n2).2.isSome = true := by
  cases h1 with
  | transportError m => exact ⟨rfl, rfl⟩
  | response sc body =>
    cases body with
    | none => exact ⟨rfl, rfl⟩
    | some cfg =>
      have hsc : 400 ≤ sc := by
        simpa [FetchResult.fails] using h
      simp [refreshCache, hsc]

/-- Any erroring refresh (hop 1 or hop 2 failure) leaves `lastUpdated`
and `keys` at their prior values. -/
lemma refreshCache_err_frame (st : OpenIdMetadata) (h1 : FetchResult IOpenIdConfig)
    (h2 : String → FetchResult JwksBody) (n2 : Int)
    (h : (refreshCache st h1 h2 n2).2.isSome = true) :
    (refreshCache st h1 h2 n2).1.lastUpdated = st.lastUpdated ∧
      (refreshCache st h1 h2 n2).1.keys = st.keys := by
  cases h1 with
  | transportError m => exact ⟨rfl, rfl⟩
  | response sc body =>
    cases body with
    | none => exact ⟨rfl, rfl⟩
    | some cfg =>
      by_cases hsc : 400 ≤ sc
      · simp [refreshCache, hsc]
      · cases hh : h2 cfg.jwks_uri with
        | transportError m2 => simp [refreshCache, hsc, hh]
        | response sc2 body2 =>
          cases body2 with
          | none => simp [refreshCache, hsc, hh]
          | some jwks =>
            by_cases hsc2 : 400 ≤ sc2
            · simp [refreshCache, hsc, hh, hsc2]
            · simp [refreshCache, hsc, hh, hsc2] at h

/-- When both hops succeed, `refreshCache` commits issuer, keys and
timestamp and reports no error. -/
lemma refreshCache_success (st : OpenIdMetadata) (sc : Nat) (cfg : IOpenIdConfig)
    (h2 : String → FetchResult JwksBody) (n2 : Int) (sc2 : Nat) (jwks : JwksBody)
    (hsc : sc < 400) (hh2 : h2 cfg.jwks_uri = .response sc2 (some jwks))
    (hsc2 : sc2 < 400) :
    refreshCache st (.response sc (some cfg)) h2 n2 =
      ({ url := st.url, lastUpdated := n2, keys := some jwks.keys,
         issuer := some cfg.issuer }, none) := by
  have h1 : ¬ 400 ≤ sc := by omega
  have h1' : ¬ 400 ≤ sc2 := by omega
  simp [refreshCache, h1, hh2, h1']

/-- A scan over records none of which carries the looked-up `kid`
returns `null`. -/
lemma findKeyInList_eq_none (l : List IKey) (keyId : String)
    (h : ∀ k ∈ l, k.kid ≠ keyId) : findKeyInList l keyId = none := by
  induction l with
  | nil => rfl
  | cons k ks ih =>
    have hk : k.kid ≠ keyId := h k (List.mem_cons_self k ks)
    simp only [findKeyInList, if_neg hk]
    exact ih fun k' hk' => h k' (List.mem_cons_of_mem k hk')

/-- A fresh-enough cache makes `getKey` a pure cache lookup. -/
lemma getKey_no_refresh (st : OpenIdMetadata) (keyId : String) (now : Int)
    (h1 : FetchResult IOpenIdConfig) (h2 : String → FetchResult JwksBody) (n2 : Int)
    (h : ¬ st.lastUpdated < now - fiveDaysMs) :
    getKey st keyId now h1 h2 n2 =
      { state := st, key := findKey st keyId, refreshed := false,
        loggedError := false } := by
  simp [getKey, h]

/-- A stale cache makes `getKey` refresh first, then search whatever
the refresh left behind. -/
lemma getKey_refresh (st : OpenIdMetadata) (keyId : String) (now : Int)
    (h1 : FetchResult IOpenIdConfig) (h2 : String → FetchResult JwksBody) (n2 : Int)
    (h : st.lastUpdated < now - fiveDaysMs) :
    getKey st keyId now h1 h2 n2 =
      { state := (refreshCache st h1 h2 n2).1,
        key := findKey (refreshCache st h1 h2 n2).1 keyId, refreshed := true,
        loggedError := (refreshCache st h1 h2 n2).2.isSome } := by
  simp [getKey, h]

/-- A trace all of whose hop-1 responses fail never sets the issuer. -/
lemma runCalls_issuer_of_hop1_fails (calls : List KeyCall) (st : OpenIdMetadata)
    (h : ∀ c ∈ calls, c.hop1.fails = true) :
    (runCalls st calls).issuer = st.issuer := by
  induction calls generalizing st with
  | nil => rfl
  | cons c cs ih =>
    have hc : c.hop1.fails = true := h c (List.mem_cons_self c cs)
    have hcs : ∀ c' ∈ cs, c'.hop1.fails = true :=
      fun c' hc' => h c' (List.mem_cons_of_mem c hc')
    show (runCalls (getKey st c.keyId c.now c.hop1 c.hop2 c.now2).state cs).issuer
        = st.issuer
    rw [ih _ hcs]
    by_cases hfresh : st.lastUpdated < c.now - fiveDaysMs
    · rw [getKey_refresh _ _ _ _ _ _ hfresh]
      exact congrArg OpenIdMetadata.issuer
        (refreshCache_hop1_fails st c.hop1 c.hop2 c.now2 hc).1
    · rw [getKey_no_refresh _ _ _ _ _ _ hfresh]

/-- A replacement text containing no dollar character is inserted
verbatim by `getSubstitution`. -/
lemma getSubstitution_no_dollar (rep matched before after : List Char)
    (h : '$' ∉ rep) : getSubstitution rep matched before after = rep := by
  induction rep with
  | nil => rfl
  | cons c rest ih =>
    rw [List.mem_cons] at h
    push_neg at h
    obtain ⟨hne, hrest⟩ := h
    have hc : ¬ c = '$' := fun hcc => hne hcc.symm
    cases rest with
    | nil => rfl
    | cons d t =>
      simp only [getSubstitution, if_neg hc]
      rw [ih hrest]

/-- With a dollar-free replacement, the source's `replace` coincides
with the spec's verbatim first-occurrence substitution, whatever text
was already passed over. -/
lemma listReplaceFirstFrom_no_dollar (pat rep s : List Char) (h : '$' ∉ rep) :
    ∀ before, listReplaceFirstFrom pat rep before s = specSubstituteFirst s pat rep := by
  induction s with
  | nil => intro before; rfl
  | cons c cs ih =>
    intro before
    by_cases hp : pat.isPrefixOf (c :: cs) = true
    · simp only [listReplaceFirstFrom, specSubstituteFirst, if_pos hp]
      rw [getSubstitution_no_dollar rep pat before _ h]
    · simp only [listReplaceFirstFrom, specSubstituteFirst, if_neg hp]
      rw [ih]

/-! ### Claim theorems -/

/-- C4: with `lastRefreshTimestamp = T`, a `getKey` call at wall-clock
time `T + 5 days − 1 ms` does not trigger a refresh (it searches the
cache directly), a call at `T + 5 days + 1 ms` triggers a refresh
before searching, and the freshness window is exactly
`1000*60*60*24*5 = 432000000` integer milliseconds. -/
theorem spec_c4_freshness_boundary (st : OpenIdMetadata) (T : Int) (keyId : String)
    (h1 : FetchResult IOpenIdConfig) (h2 : String → FetchResult JwksBody) (n2 : Int)
    (hT : st.lastUpdated = T) :
    (getKey st keyId (T + fiveDaysMs - 1) h1 h2 n2).refreshed = false ∧
    (getKey st keyId (T + fiveDaysMs - 1) h1 h2 n2).state = st ∧
    (getKey st keyId (T + fiveDaysMs + 1) h1 h2 n2).refreshed = true ∧
    fiveDaysMs = 432000000 := by
  have hlo : ¬ st.lastUpdated < (T + fiveDaysMs - 1) - fiveDaysMs := by
    rw [hT]; omega
  have hhi : st.lastUpdated < (T + fiveDaysMs + 1) - fiveDaysMs := by
    rw [hT]; omega
  rw [getKey_no_refresh st keyId (T + fiveDaysMs - 1) h1 h2 n2 hlo,
    getKey_refresh st keyId (T + fiveDaysMs + 1) h1 h2 n2 hhi]
  exact ⟨rfl, rfl, rfl, by norm_num [fiveDaysMs]⟩

/-- Witness for C4 at `T = 1000` on a concrete state. -/
theorem spec_c4_witness :
    (getKey ⟨"u", 1000, none, none⟩ "kid" (1000 + fiveDaysMs - 1)
        (.transportError "down") (fun _ => .transportError "down") 0).refreshed = false ∧
    (getKey ⟨"u", 1000, none, none⟩ "kid" (1000 + fiveDaysMs + 1)
        (.transportError "down") (fun _ => .transportError "down") 0).refreshed = true := by
  have h := spec_c4_freshness_boundary ⟨"u", 1000, none, none⟩ 1000 "kid"
    (.transportError "down") (fun _ => .transportError "down") 0 rfl
  exact ⟨h.1, h.2.2.1⟩

/-- C6: when hop 1 fails (transport error, status ≥ 400, or empty
body), the whole state — `cachedKeys`, `lastRefreshTimestamp` and the
cached issuer template — is unchanged, an error is reported, and a
`getIssuer` call that failed with the not-configured error before the
refresh still fails with it afterwards. -/
theorem spec_c6_hop1_failure_frame (st : OpenIdMetadata) (h1 : FetchResult IOpenIdConfig)
    (h2 : String → FetchResult JwksBody) (n2 : Int) (tid m : String)
    (hfail : h1.fails = true) :
    (refreshCache st h1 h2 n2).1 = st ∧
    (refreshCache st h1 h2 n2).2.isSome = true ∧
    (getIssuer st tid = .error m →
      getIssuer (refreshCache st h1 h2 n2).1 tid = .error m) := by
  obtain ⟨ha, hb⟩ := refreshCache_hop1_fails st h1 h2 n2 hfail
  exact ⟨ha, hb, fun he => by rw [ha]; exact he⟩

/-- Witness for C6: hop 1 returns status 500 on a never-configured
state; the state is unchanged and `getIssuer` still errors. -/
theorem spec_c6_witness :
    (refreshCache (OpenIdMetadata.mkNew "https://disc")
        (.response 500 (some ⟨"https://iss", "", "https://keys", [], []⟩))
        (fun _ => .transportError "down") 7).1 = OpenIdMetadata.mkNew "https://disc" ∧
    getIssuer (refreshCache (OpenIdMetadata.mkNew "https://disc")
        (.response 500 (some ⟨"https://iss", "", "https://keys", [], []⟩))
        (fun _ => .transportError "down") 7).1 "t1" = .error configNotFetchedMsg := by
  have h := spec_c6_hop1_failure_frame (OpenIdMetadata.mkNew "https://disc")
    (.response 500 (some ⟨"https://iss", "", "https://keys", [], []⟩))
    (fun _ => .transportError "down") 7 "t1" configNotFetchedMsg (by decide)
  exact ⟨h.1, h.2.2 rfl⟩

/-- C9: when hop 1 succeeds but delivers an empty-string `issuer`, a
subsequent `getIssuer` call still throws the not-configured error, in
every hop-2 outcome: the configured check is on the falsiness of the
stored issuer, not on whether a fetch ever completed. -/
theorem spec_c9_empty_issuer_not_configured (st : OpenIdMetadata) (sc : Nat)
    (cfg : IOpenIdConfig) (h2 : String → FetchResult JwksBody) (n2 : Int) (tid : String)
    (hsc : sc < 400) (hiss : cfg.issuer = "") :
    getIssuer (refreshCache st (.response sc (some cfg)) h2 n2).1 tid =
      .error configNotFetchedMsg := by
  have hn : ¬ 400 ≤ sc := by omega
  cases hh : h2 cfg.jwks_uri with
  | transportError m2 => simp [refreshCache, hn, hh, getIssuer, hiss]; decide
  | response sc2 body2 =>
    cases body2 with
    | none => simp [refreshCache, hn, hh, getIssuer, hiss]; decide
    | some jwks =>
      by_cases hsc2 : 400 ≤ sc2
      · simp [refreshCache, hn, hh, hsc2, getIssuer, hiss]; decide
      · simp [refreshCache, hn, hh, hsc2, getIssuer, hiss]; decide

/-- Witness for C9: discovery succeeds with `issuer = ""` and the keys
hop also succeeds, yet `getIssuer` still reports not-configured. -/
theorem spec_c9_witness :
    getIssuer (refreshCache (OpenIdMetadata.mkNew "https://disc")
        (.response 200 (some ⟨"", "", "https://keys", [], []⟩))
        (fun _ => .response 200 (some ⟨[]⟩)) 7).1 "t1" =
      .error configNotFetchedMsg :=
  spec_c9_empty_issuer_not_configured (OpenIdMetadata.mkNew "https://disc") 200
    ⟨"", "", "https://keys", [], []⟩ (fun _ => .response 200 (some ⟨[]⟩)) 7 "t1"
    (by omega) rfl

/-- C2: when both hops succeed, `cachedKeys` becomes exactly the
`keys` sequence of the hop-2 body (replaced wholesale, order
preserved), the error is `none`, and `lastRefreshTimestamp` becomes
the hop-2 clock sample — hence at least the refresh start time `now`
when the clock is monotone; moreover `lastRefreshTimestamp` advances
in no other case: any erroring refresh and any non-refreshing `getKey`
leave it unchanged. -/
theorem spec_c2_successful_refresh (st : OpenIdMetadata) (sc : Nat) (cfg : IOpenIdConfig)
    (h2 : String → FetchResult JwksBody) (now n2 : Int) (sc2 : Nat) (jwks : JwksBody)
    (hsc : sc < 400) (hh2 : h2 cfg.jwks_uri = .response sc2 (some jwks))
    (hsc2 : sc2 < 400) (hmono : now ≤ n2) :
    (refreshCache st (.response sc (some cfg)) h2 n2).1.keys = some jwks.keys ∧
    (refreshCache st (.response sc (some cfg)) h2 n2).1.lastUpdated = n2 ∧
    now ≤ (refreshCache st (.response sc (some cfg)) h2 n2).1.lastUpdated ∧
    (refreshCache st (.response sc (some cfg)) h2 n2).2 = none ∧
    (∀ (st' : OpenIdMetadata) (h1' : FetchResult IOpenIdConfig)
        (h2' : String → FetchResult JwksBody) (n2' : Int),
      (refreshCache st' h1' h2' n2').2.isSome = true →
      (refreshCache st' h1' h2' n2').1.lastUpdated = st'.lastUpdated) ∧
    (∀ (st' : OpenIdMetadata) (keyId : String) (n : Int)
        (h1' : FetchResult IOpenIdConfig) (h2' : String → FetchResult JwksBody)
        (n2' : Int), ¬ st'.lastUpdated < n - fiveDaysMs →
      (getKey st' keyId n h1' h2' n2').state.lastUpdated = st'.lastUpdated) := by
  rw [refreshCache_success st sc cfg h2 n2 sc2 jwks hsc hh2 hsc2]
  refine ⟨rfl, rfl, hmono, rfl, ?_, ?_⟩
  · exact fun st' h1' h2' n2' h => (refreshCache_err_frame st' h1' h2' n2' h).1
  · intro st' keyId n h1' h2' n2' h
    rw [getKey_no_refresh st' keyId n h1' h2' n2' h]

/-- Witness for C2: a concrete fully successful refresh started at
time 3 whose hop-2 callback runs at time 555. -/
theorem spec_c2_witness :
    (refreshCache ⟨"u", 0, none, none⟩
        (.response 200 (some ⟨"https://iss/\x7btenantid\x7d", "", "https://keys", [], []⟩))
        (fun _ => .response 200
          (some ⟨[⟨"RSA", "sig", "abc", "", some "AATT", some "AQAB", [], none⟩]⟩)) 555).1.keys
      = some [⟨"RSA", "sig", "abc", "", some "AATT", some "AQAB", [], none⟩] ∧
    (refreshCache ⟨"u", 0, none, none⟩
        (.response 200 (some ⟨"https://iss/\x7btenantid\x7d", "", "https://keys", [], []⟩))
        (fun _ => .response 200
          (some ⟨[⟨"RSA", "sig", "abc", "", some "AATT", some "AQAB", [], none⟩]⟩)) 555).1.lastUpdated
      = 555 ∧
    (refreshCache ⟨"u", 0, none, none⟩
        (.response 200 (some ⟨"https://iss/\x7btenantid\x7d", "", "https://keys", [], []⟩))
        (fun _ => .response 200
          (some ⟨[⟨"RSA", "sig", "abc", "", some "AATT", some "AQAB", [], none⟩]⟩)) 555).2
      = none := by
  have h := spec_c2_successful_refresh ⟨"u", 0, none, none⟩ 200
    ⟨"https://iss/\x7btenantid\x7d", "", "https://keys", [], []⟩
    (fun _ => .response 200
      (some ⟨[⟨"RSA", "sig", "abc", "", some "AATT", some "AQAB", [], none⟩]⟩)) 3 555 200
    ⟨[⟨"RSA", "sig", "abc", "", some "AATT", some "AQAB", [], none⟩]⟩
    (by omega) rfl (by omega) (by omega)
  exact ⟨h.1, h.2.1, h.2.2.2.1⟩

/-- C3: `getKey` never throws for a missing key: the value delivered
to the callback is always the result of searching the post-refresh
cache, it is `none` whenever no cache has ever been loaded or no
cached record carries the looked-up `kid`, and a refresh failure is
recorded on the log flag rather than propagated. -/
theorem spec_c3_missing_key_absent (st : OpenIdMetadata) (keyId : String) (now : Int)
    (h1 : FetchResult IOpenIdConfig) (h2 : String → FetchResult JwksBody) (n2 : Int) :
    (getKey st keyId now h1 h2 n2).key =
      findKey (getKey st keyId now h1 h2 n2).state keyId ∧
    ((getKey st keyId now h1 h2 n2).state.keys = none →
      (getKey st keyId now h1 h2 n2).key = none) ∧
    (∀ l, (getKey st keyId now h1 h2 n2).state.keys = some l →
      (∀ k ∈ l, k.kid ≠ keyId) → (getKey st keyId now h1 h2 n2).key = none) ∧
    ((getKey st keyId now h1 h2 n2).refreshed = true →
      (getKey st keyId now h1 h2 n2).loggedError =
        (refreshCache st h1 h2 n2).2.isSome) := by
  by_cases hfresh : st.lastUpdated < now - fiveDaysMs
  · rw [getKey_refresh st keyId now h1 h2 n2 hfresh]
    refine ⟨rfl, ?_, ?_, fun _ => rfl⟩
    · intro hk
      show findKey (refreshCache st h1 h2 n2).1 keyId = none
      unfold findKey
      rw [hk]
    · intro l hl hnm
      show findKey (refreshCache st h1 h2 n2).1 keyId = none
      unfold findKey
      rw [hl]
      exact findKeyInList_eq_none l keyId hnm
  · rw [getKey_no_refresh st keyId now h1 h2 n2 hfresh]
    refine ⟨rfl, ?_, ?_, fun hcontra => absurd hcontra (by simp)⟩
    · intro hk
      show findKey st keyId = none
      unfold findKey
      rw [hk]
    · intro l hl hnm
      show findKey st keyId = none
      unfold findKey
      rw [hl]
      exact findKeyInList_eq_none l keyId hnm

/-- Witness for C3: a never-loaded cache with a failing refresh still
delivers `none` for an unknown kid, with the failure logged. -/
theorem spec_c3_witness :
    (getKey ⟨"u", 0, none, none⟩ "kid" 999999999999 (.transportError "down")
        (fun _ => .transportError "down") 999999999999).key = none ∧
    (getKey ⟨"u", 0, none, none⟩ "kid" 999999999999 (.transportError "down")
        (fun _ => .transportError "down") 999999999999).loggedError =
      (refreshCache ⟨"u", 0, none, none⟩ (.transportError "down")
        (fun _ => .transportError "down") 999999999999).2.isSome := by
  have h := spec_c3_missing_key_absent ⟨"u", 0, none, none⟩ "kid" 999999999999
    (.transportError "down") (fun _ => .transportError "down") 999999999999
  exact ⟨h.2.1 rfl, h.2.2.2 rfl⟩

/-- C8: two `getKey` calls for the same kid, both within the freshness
window and with no intervening mutation, both skip the refresh (no
network fetches), leave the state untouched, and deliver the same
resolved value, namely the direct cache lookup. -/
theorem spec_c8_idempotent_lookup (st : OpenIdMetadata) (keyId : String)
    (nowA nowB n2A n2B : Int) (h1A h1B : FetchResult IOpenIdConfig)
    (h2A h2B : String → FetchResult JwksBody)
    (hA : ¬ st.lastUpdated < nowA - fiveDaysMs)
    (hB : ¬ st.lastUpdated < nowB - fiveDaysMs) :
    (getKey st keyId nowA h1A h2A n2A).refreshed = false ∧
    (getKey (getKey st keyId nowA h1A h2A n2A).state keyId nowB h1B h2B n2B).refreshed
      = false ∧
    (getKey st keyId nowA h1A h2A n2A).state = st ∧
    (getKey (getKey st keyId nowA h1A h2A n2A).state keyId nowB h1B h2B n2B).state
      = st ∧
    (getKey (getKey st keyId nowA h1A h2A n2A).state keyId nowB h1B h2B n2B).key =
      (getKey st keyId nowA h1A h2A n2A).key ∧
    (getKey st keyId nowA h1A h2A n2A).key = findKey st keyId := by
  have e1 := getKey_no_refresh st keyId nowA h1A h2A n2A hA
  have e2 := getKey_no_refresh st keyId nowB h1B h2B n2B hB
  refine ⟨?_, ?_, ?_, ?_, ?_, ?_⟩
  · rw [e1]
  · rw [e1]
    show (getKey st keyId nowB h1B h2B n2B).refreshed = false
    rw [e2]
  · rw [e1]
  · rw [e1]
    show (getKey st keyId nowB h1B h2B n2B).state = st
    rw [e2]
  · rw [e1]
    show (getKey st keyId nowB h1B h2B n2B).key = findKey st keyId
    rw [e2]
  · rw [e1]

/-- Witness for C8 on a concrete cached RSA key, both calls inside the
window. -/
theorem spec_c8_witness :
    (getKey ⟨"u", 1000, some [⟨"RSA", "sig", "abc", "", some "AATT", some "AQAB", [], none⟩],
        some "https://iss"⟩ "abc" 500 (.transportError "down")
        (fun _ => .transportError "down") 0).refreshed = false ∧
    (getKey (getKey ⟨"u", 1000, some [⟨"RSA", "sig", "abc", "", some "AATT", some "AQAB", [], none⟩],
        some "https://iss"⟩ "abc" 500 (.transportError "down")
        (fun _ => .transportError "down") 0).state "abc" 600 (.transportError "down")
        (fun _ => .transportError "down") 0).key =
      (getKey ⟨"u", 1000, some [⟨"RSA", "sig", "abc", "", some "AATT", some "AQAB", [], none⟩],
        some "https://iss"⟩ "abc" 500 (.transportError "down")
        (fun _ => .transportError "down") 0).key := by
  have h := spec_c8_idempotent_lookup
    ⟨"u", 1000, some [⟨"RSA", "sig", "abc", "", some "AATT", some "AQAB", [], none⟩],
      some "https://iss"⟩ "abc" 500 600 0 0 (.transportError "down") (.transportError "down")
    (fun _ => .transportError "down") (fun _ => .transportError "down")
    (by decide) (by decide)
  exact ⟨h.1, h.2.2.2.2.1⟩

/-- C5 counterexample: for the tenant identifier `"$&"`, JavaScript
`replace` expands the dollar pattern to the matched text, so
`getIssuer` returns the template with `\x7btenantid\x7d` spliced back
in — not the template with the placeholder substituted by the given
tenant identifier, which the claim asserts for every tenant
identifier. -/
theorem spec_c5_cex :
    getIssuer ⟨"u", 0, none, some "https://login/\x7btenantid\x7d/v2"⟩ "$&" =
      .ok "https://login/\x7btenantid\x7d/v2" ∧
    ("https://login/\x7btenantid\x7d/v2" : String) ≠ "https://login/$&/v2" :=
  ⟨rfl, by decide⟩

/-- C5 (amended): `getIssuer` fails with the not-configured error
after any history of `getKey` calls in which the discovery document
was never successfully fetched (every hop-1 response failing); and on
a state holding a non-empty cached issuer, for every tenant identifier
free of the dollar character, it returns the template with the literal
`\x7btenantid\x7d` placeholder substituted verbatim by that tenant
identifier (dollar-containing identifiers instead undergo JS
`GetSubstitution` expansion). -/
theorem spec_c5_issuer_contract (url : String) (calls : List KeyCall) (tid : String)
    (st : OpenIdMetadata) (s : String) :
    ((∀ c ∈ calls, c.hop1.fails = true) →
      getIssuer (runCalls (OpenIdMetadata.mkNew url) calls) tid =
        .error configNotFetchedMsg) ∧
    (st.issuer = some s → s ≠ "" → '$' ∉ tid.data →
      getIssuer st tid =
        .ok (String.mk (specSubstituteFirst s.data tenantPlaceholder.data tid.data))) := by
  constructor
  · intro h
    have hiss : (runCalls (OpenIdMetadata.mkNew url) calls).issuer = none :=
      runCalls_issuer_of_hop1_fails calls (OpenIdMetadata.mkNew url) h
    unfold getIssuer
    rw [hiss]
  · intro hiss hne hnd
    have hempty : s.isEmpty = false := by
      rcases Bool.eq_false_or_eq_true s.isEmpty with h | h
      · exact absurd ((String.isEmpty_iff s).mp h) hne
      · exact h
    unfold getIssuer
    rw [hiss]
    simp only [hempty, Bool.false_eq_true, if_false]
    show Except.ok (String.mk (listReplaceFirstFrom tenantPlaceholder.data tid.data
      [] s.data)) = _
    rw [listReplaceFirstFrom_no_dollar tenantPlaceholder.data tid.data s.data hnd []]

/-- Witness for the amended C5: an empty call history leaves
`getIssuer` erroring; a configured state substitutes the dollar-free
tenant id verbatim. -/
theorem spec_c5_witness :
    getIssuer (runCalls (OpenIdMetadata.mkNew "https://disc") []) "t1" =
      .error configNotFetchedMsg ∧
    getIssuer ⟨"u", 0, none, some "https://login/\x7btenantid\x7d/v2"⟩ "t1" =
      .ok "https://login/t1/v2" := by
  have h1 := (spec_c5_issuer_contract "https://disc" [] "t1"
    ⟨"u", 0, none, some "https://login/\x7btenantid\x7d/v2"⟩
    "https://login/\x7btenantid\x7d/v2").1 (by simp)
  have h2 := (spec_c5_issuer_contract "https://disc" [] "t1"
    ⟨"u", 0, none, some "https://login/\x7btenantid\x7d/v2"⟩
    "https://login/\x7btenantid\x7d/v2").2 rfl (by decide) (by decide)
  refine ⟨h1, ?_⟩
  rw [h2]
  congr 1

/-- C1 counterexample: a refresh cycle in which hop 1 succeeds (status
200, non-empty body, `fails = false`) and hop 2 fails with a transport
error, yet a subsequent `getIssuer` call still fails with the
not-configured error, because the fetched `issuer` field was the empty
string.  The frame part holds (keys and timestamp untouched), but the
claimed "no longer NotConfiguredError" does not. -/
theorem spec_c1_cex :
    (FetchResult.fails
      (.response 200 (some (⟨"", "", "https://keys", [], []⟩ : IOpenIdConfig))) = false) ∧
    (refreshCache (OpenIdMetadata.mkNew "https://disc")
        (.response 200 (some ⟨"", "", "https://keys", [], []⟩))
        (fun _ => .transportError "ECONNREFUSED") 7).2 = some "ECONNREFUSED" ∧
    (refreshCache (OpenIdMetadata.mkNew "https://disc")
        (.response 200 (some ⟨"", "", "https://keys", [], []⟩))
        (fun _ => .transportError "ECONNREFUSED") 7).1.issuer = some "" ∧
    getIssuer (refreshCache (OpenIdMetadata.mkNew "https://disc")
        (.response 200 (some ⟨"", "", "https://keys", [], []⟩))
        (fun _ => .transportError "ECONNREFUSED") 7).1 "t1" =
      .error configNotFetchedMsg := by
  refine ⟨rfl, rfl, rfl, rfl⟩

/-- C1 (amended): when hop 1 succeeds with a non-empty `issuer` string
and hop 2 fails, the refresh reports an error, the issuer template is
committed — a subsequent `getIssuer` call no longer fails — while
`cachedKeys` and `lastRefreshTimestamp` remain at their values from
before the refresh. -/
theorem spec_c1_issuer_committed_on_hop2_failure (st : OpenIdMetadata) (sc : Nat)
    (cfg : IOpenIdConfig) (h2 : String → FetchResult JwksBody) (n2 : Int) (tid : String)
    (hsc : sc < 400) (h2fail : (h2 cfg.jwks_uri).fails = true) (hne : cfg.issuer ≠ "") :
    (refreshCache st (.response sc (some cfg)) h2 n2).2.isSome = true ∧
    (refreshCache st (.response sc (some cfg)) h2 n2).1.issuer = some cfg.issuer ∧
    (refreshCache st (.response sc (some cfg)) h2 n2).1.keys = st.keys ∧
    (refreshCache st (.response sc (some cfg)) h2 n2).1.lastUpdated = st.lastUpdated ∧
    ∃ out, getIssuer (refreshCache st (.response sc (some cfg)) h2 n2).1 tid =
      Except.ok out := by
  have hn : ¬ 400 ≤ sc := by omega
  have hempty : cfg.issuer.isEmpty = false := by
    rcases Bool.eq_false_or_eq_true cfg.issuer.isEmpty with h | h
    · exact absurd ((String.isEmpty_iff cfg.issuer).mp h) hne
    · exact h
  cases hh : h2 cfg.jwks_uri with
  | transportError m2 =>
    refine ⟨by simp [refreshCache, hn, hh], by simp [refreshCache, hn, hh],
      by simp [refreshCache, hn, hh], by simp [refreshCache, hn, hh],
      replaceFirst cfg.issuer tenantPlaceholder tid, ?_⟩
    simp [refreshCache, hn, hh, getIssuer, hempty]
  | response sc2 body2 =>
    cases body2 with
    | none =>
      refine ⟨by simp [refreshCache, hn, hh], by simp [refreshCache, hn, hh],
        by simp [refreshCache, hn, hh], by simp [refreshCache, hn, hh],
        replaceFirst cfg.issuer tenantPlaceholder tid, ?_⟩
      simp [refreshCache, hn, hh, getIssuer, hempty]
    | some jwks =>
      have hsc2 : 400 ≤ sc2 := by
        simpa [FetchResult.fails, hh] using h2fail
      refine ⟨by simp [refreshCache, hn, hh, hsc2], by simp [refreshCache, hn, hh, hsc2],
        by simp [refreshCache, hn, hh, hsc2], by simp [refreshCache, hn, hh, hsc2],
        replaceFirst cfg.issuer tenantPlaceholder tid, ?_⟩
      simp [refreshCache, hn, hh, hsc2, getIssuer, hempty]

/-- Witness for the amended C1: non-empty issuer fetched, keys hop
down; issuer resolvable afterwards, keys and timestamp untouched. -/
theorem spec_c1_witness :
    (refreshCache ⟨"https://disc", 42, some [], none⟩
        (.response 200 (some ⟨"https://iss/\x7btenantid\x7d", "", "https://keys", [], []⟩))
        (fun _ => .transportError "ECONNREFUSED") 7).1.issuer =
      some "https://iss/\x7btenantid\x7d" ∧
    (refreshCache ⟨"https://disc", 42, some [], none⟩
        (.response 200 (some ⟨"https://iss/\x7btenantid\x7d", "", "https://keys", [], []⟩))
        (fun _ => .transportError "ECONNREFUSED") 7).1.keys = some [] ∧
    (refreshCache ⟨"https://disc", 42, some [], none⟩
        (.response 200 (some ⟨"https://iss/\x7btenantid\x7d", "", "https://keys", [], []⟩))
        (fun _ => .transportError "ECONNREFUSED") 7).1.lastUpdated = 42 ∧
    ∃ out, getIssuer (refreshCache ⟨"https://disc", 42, some [], none⟩
        (.response 200 (some ⟨"https://iss/\x7btenantid\x7d", "", "https://keys", [], []⟩))
        (fun _ => .transportError "ECONNREFUSED") 7).1 "t1" = Except.ok out := by
  have h := spec_c1_issuer_committed_on_hop2_failure ⟨"https://disc", 42, some [], none⟩
    200 ⟨"https://iss/\x7btenantid\x7d", "", "https://keys", [], []⟩
    (fun _ => .transportError "ECONNREFUSED") 7 "t1" (by omega) rfl (by decide)
  exact ⟨h.2.1, h.2.2.1, h.2.2.2.1, h.2.2.2.2⟩

/-- C7 counterexample: a cache holding two records with the same kid
`"abc"`, the first a complete RSA record and the second an EC record
with no modulus or exponent.  The EC record matches the queried kid
and is missing `n`, yet `findKey` does not return absent: the scan
stops at the first match. -/
theorem spec_c7_cex :
    ((⟨"EC", "sig", "abc", "", none, none, [], none⟩ : IKey) ∈
      ([⟨"RSA", "sig", "abc", "", some "AATT", some "AQAB", [], none⟩,
        ⟨"EC", "sig", "abc", "", none, none, [], none⟩] : List IKey)) ∧
    (⟨"EC", "sig", "abc", "", none, none, [], none⟩ : IKey).kid = "abc" ∧
    strFalsy (⟨"EC", "sig", "abc", "", none, none, [], none⟩ : IKey).n = true ∧
    (findKey ⟨"u", 0,
        some [⟨"RSA", "sig", "abc", "", some "AATT", some "AQAB", [], none⟩,
          ⟨"EC", "sig", "abc", "", none, none, [], none⟩], none⟩ "abc").isSome = true := by
  refine ⟨by simp, rfl, rfl, rfl⟩

/-- The scan applied to a list whose first record carrying the
looked-up kid is non-RSA returns `null`. -/
lemma findKeyInList_first_match_non_rsa (pre : List IKey) (k : IKey) (post : List IKey)
    (keyId : String) (hpre : ∀ k' ∈ pre, k'.kid ≠ keyId) (hmatch : k.kid = keyId)
    (hnon : strFalsy k.n = true ∨ strFalsy k.e = true) :
    findKeyInList (pre ++ k :: post) keyId = none := by
  induction pre with
  | nil =>
    have hor : (strFalsy k.n || strFalsy k.e) = true := by
      rcases hnon with h | h <;> simp [h]
    simp [findKeyInList, hmatch, hor]
  | cons p ps ih =>
    have hp : p.kid ≠ keyId := hpre p (List.mem_cons_self p ps)
    show findKeyInList (p :: (ps ++ k :: post)) keyId = none
    simp only [findKeyInList, if_neg hp]
    exact ih fun k' hk' => hpre k' (List.mem_cons_of_mem p hk')

/-- C7 (amended): whenever the first cached record carrying the
queried kid is missing the RSA modulus or exponent, `findKey` (hence
`resolveKey`) returns absent even though the record exists. -/
theorem spec_c7_first_match_non_rsa_absent (st : OpenIdMetadata) (pre : List IKey)
    (k : IKey) (post : List IKey) (keyId : String)
    (hkeys : st.keys = some (pre ++ k :: post))
    (hpre : ∀ k' ∈ pre, k'.kid ≠ keyId) (hmatch : k.kid = keyId)
    (hnon : strFalsy k.n = true ∨ strFalsy k.e = true) :
    findKey st keyId = none := by
  unfold findKey
  rw [hkeys]
  exact findKeyInList_first_match_non_rsa pre k post keyId hpre hmatch hnon

/-- Witness for the amended C7: an EC-only cache entry for the queried
kid yields absent. -/
theorem spec_c7_witness :
    findKey ⟨"u", 0, some [⟨"EC", "sig", "abc", "", none, none, [], none⟩], none⟩ "abc"
      = none :=
  spec_c7_first_match_non_rsa_absent
    ⟨"u", 0, some [⟨"EC", "sig", "abc", "", none, none, [], none⟩], none⟩ []
    ⟨"EC", "sig", "abc", "", none, none, [], none⟩ [] "abc" rfl (by simp) rfl
    (Or.inl rfl)

/-- `listReplaceFirstFrom` rewrites exactly the first occurrence of
the pattern: when no occurrence of `pat` starts before position
`a.length`, the occurrence sitting right after `a` is replaced by the
`GetSubstitution` expansion of `rep` and the tail `b` — which may
itself contain further occurrences — is kept verbatim. -/
lemma listReplaceFirstFrom_at_first_occurrence (a pat b rep pre : List Char)
    (hpat : pat ≠ [])
    (hfirst : ∀ i, i < a.length →
      ¬ pat.isPrefixOf ((a ++ (pat ++ b)).drop i) = true) :
    listReplaceFirstFrom pat rep pre (a ++ (pat ++ b)) =
      a ++ (getSubstitution rep pat (pre ++ a) b ++ b) := by
  induction a generalizing pre with
  | nil =>
    obtain ⟨c, pat', rfl⟩ : ∃ c pat', pat = c :: pat' := by
      cases pat with
      | nil => exact absurd rfl hpat
      | cons c p => exact ⟨c, p, rfl⟩
    have hpre : (c :: pat').isPrefixOf (c :: (pat' ++ b)) = true := by
      rw [List.isPrefixOf_iff_prefix]
      have := List.prefix_append (c :: pat') b
      rwa [List.cons_append] at this
    show (if (c :: pat').isPrefixOf (c :: (pat' ++ b)) then
        getSubstitution rep (c :: pat') pre ((c :: (pat' ++ b)).drop (c :: pat').length)
          ++ (c :: (pat' ++ b)).drop (c :: pat').length
      else c :: listReplaceFirstFrom (c :: pat') rep (pre ++ [c]) (pat' ++ b)) =
      getSubstitution rep (c :: pat') (pre ++ []) b ++ b
    rw [if_pos hpre]
    have hdrop : (c :: (pat' ++ b)).drop (c :: pat').length = b := by
      show (pat' ++ b).drop pat'.length = b
      exact List.drop_left pat' b
    rw [hdrop, List.append_nil]
  | cons c a' ih =>
    have h0 : ¬ pat.isPrefixOf (c :: (a' ++ (pat ++ b))) = true :=
      hfirst 0 (Nat.succ_pos a'.length)
    show (if pat.isPrefixOf (c :: (a' ++ (pat ++ b))) then
        getSubstitution rep pat pre ((c :: (a' ++ (pat ++ b))).drop pat.length)
          ++ (c :: (a' ++ (pat ++ b))).drop pat.length
      else c :: listReplaceFirstFrom pat rep (pre ++ [c]) (a' ++ (pat ++ b))) =
      c :: (a' ++ (getSubstitution rep pat (pre ++ (c :: a')) b ++ b))
    rw [if_neg h0]
    rw [ih (pre ++ [c]) (fun i hi => hfirst (i + 1) (Nat.succ_lt_succ hi))]
    rw [List.append_assoc pre [c] a', List.singleton_append]

/-- C10 counterexample: on a template holding the placeholder twice,
the tenant identifier `"$&"` is not substituted in for the first
occurrence — JavaScript `replace` expands it to the matched text, so
the output is the unchanged template, not the template with `"$&"` in
place of the first placeholder as the claim asserts. -/
theorem spec_c10_cex :
    getIssuer ⟨"u", 0, none,
        some "https://login/\x7btenantid\x7d/v2/\x7btenantid\x7d"⟩ "$&" =
      .ok "https://login/\x7btenantid\x7d/v2/\x7btenantid\x7d" ∧
    ("https://login/\x7btenantid\x7d/v2/\x7btenantid\x7d" : String) ≠
      "https://login/$&/v2/\x7btenantid\x7d" :=
  ⟨rfl, by decide⟩

/-- C10 (amended): on a cached issuer template whose first occurrence
of the literal `\x7btenantid\x7d` placeholder follows the prefix `a`,
`getIssuer` substitutes only that first occurrence — by the JS
`GetSubstitution` expansion of the tenant identifier, which is the
identifier itself whenever it contains no dollar character — and the
whole tail `b`, every later occurrence of the placeholder included,
remains verbatim in the returned string. -/
theorem spec_c10_first_occurrence_only (st : OpenIdMetadata) (a b : List Char)
    (tid : String)
    (hiss : st.issuer = some (String.mk (a ++ (tenantPlaceholder.data ++ b))))
    (hfirst : ∀ i, i < a.length →
      ¬ tenantPlaceholder.data.isPrefixOf
        ((a ++ (tenantPlaceholder.data ++ b)).drop i) = true) :
    getIssuer st tid =
      .ok (String.mk
        (a ++ (getSubstitution tid.data tenantPlaceholder.data a b ++ b))) ∧
    ('$' ∉ tid.data →
      getIssuer st tid = .ok (String.mk (a ++ (tid.data ++ b)))) := by
  have hpat : tenantPlaceholder.data ≠ [] := by decide
  have hrep := listReplaceFirstFrom_at_first_occurrence a tenantPlaceholder.data b
    tid.data [] hpat hfirst
  rw [List.nil_append] at hrep
  have hne : String.mk (a ++ (tenantPlaceholder.data ++ b)) ≠ "" := by
    intro hc
    have hd : a ++ (tenantPlaceholder.data ++ b) = ([] : List Char) :=
      congrArg String.data hc
    exact hpat (List.append_eq_nil.mp (List.append_eq_nil.mp hd).2).1
  have hempty : (String.mk (a ++ (tenantPlaceholder.data ++ b))).isEmpty = false := by
    rcases Bool.eq_false_or_eq_true
        (String.mk (a ++ (tenantPlaceholder.data ++ b))).isEmpty with h | h
    · exact absurd ((String.isEmpty_iff _).mp h) hne
    · exact h
  have hmain : getIssuer st tid =
      .ok (String.mk
        (a ++ (getSubstitution tid.data tenantPlaceholder.data a b ++ b))) := by
    unfold getIssuer
    rw [hiss]
    simp only [hempty, Bool.false_eq_true, if_false]
    show Except.ok (String.mk (listReplaceFirstFrom tenantPlaceholder.data tid.data
      [] (a ++ (tenantPlaceholder.data ++ b)))) = _
    rw [hrep]
  refine ⟨hmain, fun hnd => ?_⟩
  rw [hmain, getSubstitution_no_dollar tid.data tenantPlaceholder.data a b hnd]

/-- Witness for the amended C10: a template holding the placeholder
twice and a dollar-free tenant id; only the first occurrence is
substituted. -/
theorem spec_c10_witness :
    getIssuer ⟨"u", 0, none,
        some "https://login/\x7btenantid\x7d/v2/\x7btenantid\x7d"⟩ "t1" =
      .ok "https://login/t1/v2/\x7btenantid\x7d" := by
  have h := (spec_c10_first_occurrence_only
    ⟨"u", 0, none, some "https://login/\x7btenantid\x7d/v2/\x7btenantid\x7d"⟩
    ("https://login/".data) ("/v2/\x7btenantid\x7d".data) "t1" (by decide)
    (by decide)).2 (by decide)
  rw [h]
  congr 1

end OpenIdAuth
